import Mathlib

/-!
Shallow embedding of the cervical-cancer agent-based model screening subsystem
(file model/screening.py), together with the state enumerations it consumes.
Random draws are modelled as a stream of rationals consumed one draw per
decision point, mirroring the single shared uniform source of the Python code.
Python exceptions are modelled with Except String.
-/

/-- Modelled from the spec: enumeration HpvState from model/state.py (not in
src/): NORMAL < HPV < CIN_1 < CIN_2_3 < CANCER. -/
inductive HpvState where
  | NORMAL
  | HPV
  | CIN_1
  | CIN_2_3
  | CANCER
deriving DecidableEq, Repr

/-- Modelled from the spec: enumeration CancerState from model/state.py (not in
src/): NORMAL, LOCAL, REGIONAL, DISTANT, DEAD. -/
inductive CancerState where
  | NORMAL
  | LOCAL
  | REGIONAL
  | DISTANT
  | DEAD
deriving DecidableEq, Repr

/-- Modelled from the spec: enumeration HpvStrain from model/state.py (not in
src/): LOW_RISK, HIGH_RISK, SIXTEEN, EIGHTEEN. -/
inductive HpvStrain where
  | LOW_RISK
  | HIGH_RISK
  | SIXTEEN
  | EIGHTEEN
deriving DecidableEq, Repr

/-- Modelled from the spec: enumeration CervicalLesionState from model/state.py
(not in src/): NORMAL, ASCUS, LSIL, ASCH, HSIL. -/
inductive CervicalLesionState where
  | NORMAL
  | ASCUS
  | LSIL
  | ASCH
  | HSIL
deriving DecidableEq, Repr

/-- Modelled from the spec: enumeration CancerDetectionState from model/state.py
(not in src/): UNDETECTED, DETECTED. -/
inductive CancerDetectionState where
  | UNDETECTED
  | DETECTED
deriving DecidableEq, Repr

/-- Modelled from the spec: the event kinds of model/event.py (not in src/)
that the screening protocols record; the surveillance variant of each test is
selected when the agent is in the SURVEILLANCE screening state. -/
inductive Event where
  | SCREENING_VIA
  | SURVEILLANCE_VIA
  | SCREENING_DNA
  | SURVEILLANCE_DNA
  | SCREENING_CANCER_INSPECTION
  | SURVEILLANCE_CANCER_INSPECTION
deriving DecidableEq, Repr

/-- ScreeningTestResult from model/screening.py lines 13-17:
NEGATIVE = 0, POSITIVE = 1, CANCER = 2. -/
inductive ScreeningTestResult where
  | NEGATIVE
  | POSITIVE
  | CANCER
deriving DecidableEq, Repr

/-- ScreeningState from model/screening.py lines 20-24:
ROUTINE = 1, RE_TEST = 2, SURVEILLANCE = 3.  Note that the source enum has no
COLPOSCOPY member, although other code in the same file refers to one. -/
inductive ScreeningState where
  | ROUTINE
  | RE_TEST
  | SURVEILLANCE
deriving DecidableEq, Repr

/-- A deterministic stream of uniform draws: draws is the sequence of values
the shared random source will return, idx the number of draws consumed. -/
structure Rng where
  draws : Nat → ℚ
  idx : Nat

/-- One call of model.rng.random(): return the next value and advance. -/
def Rng.random (r : Rng) : ℚ × Rng :=
  (r.draws r.idx, ⟨r.draws, r.idx + 1⟩)

/-- The stream after one draw has been consumed. -/
def Rng.bump (r : Rng) : Rng := ⟨r.draws, r.idx + 1⟩

/-- Sensitivity/specificity/cost parameters of a single screening test. -/
structure TestParams where
  sensitivity : ℚ
  specificity : ℚ
  cost : ℚ
deriving DecidableEq

/-- Screening parameters consumed by model/screening.py: per-test parameters
plus the eligibility windows and intervals read by is_due_for_screening. -/
structure ScreeningParameters where
  via : TestParams
  dna : TestParams
  cytology : TestParams
  cotest : TestParams
  cancer_inspection : TestParams
  age_routine_start : ℚ
  age_routine_end : ℚ
  interval_routine : ℚ
  interval_re_test : ℚ
  interval_surveillance : ℚ
  interval_hiv : ℚ
deriving DecidableEq

namespace ViaScreeningTest

/-- ViaScreeningTest.get_result, model/screening.py lines 39-81.  Raises
ValueError when the cancer state is DEAD or when the HPV state is CANCER while
the cancer state is NORMAL; otherwise one draw decides the result per branch,
except the REGIONAL/DISTANT cancer branch which returns CANCER with no draw. -/
def get_result (params : TestParams) (true_hpv_state : HpvState)
    (true_cancer_state : CancerState) (rng : Rng) :
    Except String (ScreeningTestResult × Rng) :=
  if true_cancer_state = CancerState.DEAD then
    .error "ValueError"
  else if true_hpv_state = HpvState.CANCER ∧ true_cancer_state = CancerState.NORMAL then
    .error "ValueError"
  else if true_hpv_state = HpvState.NORMAL ∨ true_hpv_state = HpvState.HPV ∨
      true_hpv_state = HpvState.CIN_1 then
    let (d, rng) := rng.random
    if d > params.specificity then .ok (ScreeningTestResult.POSITIVE, rng)
    else .ok (ScreeningTestResult.NEGATIVE, rng)
  else if true_hpv_state = HpvState.CIN_2_3 then
    let (d, rng) := rng.random
    if d < params.sensitivity then .ok (ScreeningTestResult.POSITIVE, rng)
    else .ok (ScreeningTestResult.NEGATIVE, rng)
  else if true_cancer_state = CancerState.LOCAL then
    let (d, rng) := rng.random
    if d < params.sensitivity then .ok (ScreeningTestResult.CANCER, rng)
    else .ok (ScreeningTestResult.NEGATIVE, rng)
  else
    .ok (ScreeningTestResult.CANCER, rng)

end ViaScreeningTest

/-- The detectable strains of DnaScreeningTest.get_result,
model/screening.py lines 111-115. -/
def detectable : List HpvStrain :=
  [HpvStrain.SIXTEEN, HpvStrain.EIGHTEEN, HpvStrain.HIGH_RISK]

namespace DnaScreeningTest

/-- DnaScreeningTest.get_result, model/screening.py lines 89-147.  Step 1
computes one overall positive/negative result from a single draw (specificity
gate when all detectable strains are NORMAL, marking a false positive when it
fires; sensitivity gate otherwise); if overall NEGATIVE every strain is
NEGATIVE.  Step 2 marks each detectable non-NORMAL strain POSITIVE and forces
HIGH_RISK POSITIVE on the false-positive branch.  The function never raises. -/
def get_result (params : TestParams) (true_hpv_states : HpvStrain → HpvState)
    (rng : Rng) : (HpvStrain → ScreeningTestResult) × Rng :=
  let noStrain := detectable.all (fun s => true_hpv_states s = HpvState.NORMAL)
  let (d, rng) := rng.random
  let false_positive := noStrain ∧ d > params.specificity
  let overall_positive :=
    if noStrain then d > params.specificity else d < params.sensitivity
  if overall_positive then
    let base := fun strain =>
      if strain ∈ detectable ∧ true_hpv_states strain ≠ HpvState.NORMAL then
        ScreeningTestResult.POSITIVE
      else ScreeningTestResult.NEGATIVE
    if false_positive then
      (fun strain =>
        if strain = HpvStrain.HIGH_RISK then ScreeningTestResult.POSITIVE
        else base strain, rng)
    else (base, rng)
  else
    (fun _ => ScreeningTestResult.NEGATIVE, rng)

end DnaScreeningTest

namespace CytologyScreeningTest

/-- CytologyScreeningTest.get_result, model/screening.py lines 155-185:
specificity gate for a NORMAL lesion, sensitivity gate for ASCUS/LSIL/ASCH/HSIL,
ValueError otherwise (unreachable over the closed enumeration). -/
def get_result (params : TestParams)
    (true_cervical_lesion_state : CervicalLesionState) (rng : Rng) :
    Except String (ScreeningTestResult × Rng) :=
  if true_cervical_lesion_state = CervicalLesionState.NORMAL then
    let (d, rng) := rng.random
    if d > params.specificity then .ok (ScreeningTestResult.POSITIVE, rng)
    else .ok (ScreeningTestResult.NEGATIVE, rng)
  else if true_cervical_lesion_state = CervicalLesionState.ASCUS ∨
      true_cervical_lesion_state = CervicalLesionState.LSIL ∨
      true_cervical_lesion_state = CervicalLesionState.ASCH ∨
      true_cervical_lesion_state = CervicalLesionState.HSIL then
    let (d, rng) := rng.random
    if d < params.sensitivity then .ok (ScreeningTestResult.POSITIVE, rng)
    else .ok (ScreeningTestResult.NEGATIVE, rng)
  else
    .error "Unexpected cervical lesion state"

end CytologyScreeningTest

/-- The four HPV strains, in the enumeration order of model/state.py. -/
def allStrains : List HpvStrain :=
  [HpvStrain.LOW_RISK, HpvStrain.HIGH_RISK, HpvStrain.SIXTEEN, HpvStrain.EIGHTEEN]

/-- The composite record returned by CoTestScreeningTest.get_result,
model/screening.py lines 224-240. -/
structure CoTestRecord where
  cotest : ScreeningTestResult
  cytology : ScreeningTestResult
  hpv : HpvStrain → ScreeningTestResult
  hpv_16_18 : Bool
  hr_hpv : Bool
  lr_hpv : Bool

/-- The error raised at model/screening.py line 121 when the integer agent id
is subscripted: the call at line 203 passes unique_id where
DnaScreeningTest.get_result expects the per-strain dict, and
true_hpv_states[strain] on an int raises TypeError. -/
def intSubscriptTypeErrorMsg : String := "TypeError: int is not subscriptable"

/-- Modelled from the spec: the outcome of the call at model/screening.py
line 202, which passes the integer unique_id where
CytologyScreeningTest.get_result expects a CervicalLesionState.  The enum
comparisons of lines 167-177 applied to that integer either select a draw
branch and return a test result, or fall through to the ValueError of
line 183; which of the two happens depends on the numeric member values of
CervicalLesionState in model/state.py, which is not in src/, so the embedding
abstracts the outcome of this one mistyped call as a parameter. -/
inductive CytologyIntCallOutcome where
  | returns (result : ScreeningTestResult) (rng : Rng)
  | raises (e : String)

namespace CoTestScreeningTest

/-- CoTestScreeningTest.get_result, model/screening.py lines 195-240, as the
code executes.  After the age guard of lines 196-200, line 202 calls the
cytology sub-test and line 203 the DNA sub-test, both with the integer
unique_id in the argument position of the true states.  If the mistyped
cytology call raises, get_result propagates that exception; if it returns a
result, the DNA call subscripts the integer (true_hpv_states[strain],
line 121) and raises TypeError.  Either way the true-positive composition of
lines 206-222 and the record of lines 224-240 are dead code, and no
CoTestRecord is ever produced. -/
def get_result (age : ℚ) (cytology_call : CytologyIntCallOutcome) :
    Except String (CoTestRecord × Rng) :=
  if age < 30 ∨ age > 65 then
    .error "ValueError: CoTest is only applicable for ages 30-65"
  else
    match cytology_call with
    | .raises e => .error e
    | .returns _ _ => .error intSubscriptTypeErrorMsg

end CoTestScreeningTest

namespace CancerInspectionScreeningTest

/-- CancerInspectionScreeningTest.get_result, model/screening.py lines 248-272.
Raises ValueError on DEAD; specificity gate (false alarm returns CANCER) for
NORMAL/LOCAL; sensitivity gate for the detectable states REGIONAL/DISTANT. -/
def get_result (params : TestParams) (true_cancer_state : CancerState)
    (rng : Rng) : Except String (ScreeningTestResult × Rng) :=
  if true_cancer_state = CancerState.DEAD then
    .error "ValueError"
  else if true_cancer_state = CancerState.NORMAL ∨
      true_cancer_state = CancerState.LOCAL then
    let (d, rng) := rng.random
    if d > params.specificity then .ok (ScreeningTestResult.CANCER, rng)
    else .ok (ScreeningTestResult.NEGATIVE, rng)
  else
    let (d, rng) := rng.random
    if d < params.sensitivity then .ok (ScreeningTestResult.CANCER, rng)
    else .ok (ScreeningTestResult.NEGATIVE, rng)

end CancerInspectionScreeningTest

/-- The per-agent view of the simulation model consumed by is_due_for_screening,
is_compliant_with_screening and the protocols applied to a single agent:
the fields of the external model object that model/screening.py reads, plus the
mutable per-agent bookkeeping it writes (events list, screening state,
last_screen_age) and counters for the opaque clinical-action callbacks. -/
structure Model where
  uid : Nat
  time : Int
  age : ℚ
  params : ScreeningParameters
  screening_state : ScreeningState
  cancer_detection : CancerDetectionState
  hiv_detected : Bool
  last_screen_age : Option ℚ
  compliant_routine_state : Bool
  compliant_surveillance_state : Bool
  max_hpv_state : HpvState
  cancer : CancerState
  hpv_strains : HpvStrain → HpvState
  cervical_lesion : CervicalLesionState
  events : List (Int × Nat × Event × ℚ)
  treat_cin_calls : Nat
  detect_cancer_calls : Nat
  rng : Rng

/-- model.events.record_event, appending one (time, unique_id, event, cost)
row; the log is append-only. -/
def Model.record_event (m : Model) (e : Event) (cost : ℚ) : Model :=
  { m with events := m.events ++ [(m.time, m.uid, e, cost)] }

/-- The opaque external callback treat_cin, modelled as an invocation count. -/
def Model.treat_cin (m : Model) : Model :=
  { m with treat_cin_calls := m.treat_cin_calls + 1 }

/-- The opaque external callback detect_cancer, modelled as an invocation
count. -/
def Model.detect_cancer (m : Model) : Model :=
  { m with detect_cancer_calls := m.detect_cancer_calls + 1 }

/-- is_due_for_screening, model/screening.py lines 275-313: DETECTED cancer is
never due; ROUTINE agents outside the routine age window are not due; the
interval is selected by screening state, tightened by the HIV interval for
HIV-detected agents; a never-screened agent is due, otherwise due when the
time since the last screen reaches the interval.  The NotImplementedError
branch for an unknown screening state is unreachable over the closed
enumeration. -/
def is_due_for_screening (m : Model) : Bool :=
  if m.cancer_detection = CancerDetectionState.DETECTED then false
  else
    let t1 := m.age < m.params.age_routine_start
    let t2 := m.age > m.params.age_routine_end
    if m.screening_state = ScreeningState.ROUTINE ∧ (t1 ∨ t2) then false
    else
      let interval :=
        match m.screening_state with
        | ScreeningState.ROUTINE => m.params.interval_routine
        | ScreeningState.RE_TEST => m.params.interval_re_test
        | ScreeningState.SURVEILLANCE => m.params.interval_surveillance
      let interval :=
        if m.hiv_detected then min interval m.params.interval_hiv else interval
      match m.last_screen_age with
      | none => true
      | some lsa => decide (m.age - lsa ≥ interval)

/-- is_compliant_with_screening, model/screening.py lines 316-321. -/
def is_compliant_with_screening (m : Model) : Bool :=
  match m.screening_state with
  | ScreeningState.ROUTINE => m.compliant_routine_state
  | ScreeningState.SURVEILLANCE => m.compliant_surveillance_state
  | _ => true

/-- The error carried by the NotImplementedError branches that guard against an
unexpected screening test result inside the protocols. -/
def unexpectedResultMsg : String := "NotImplementedError: unexpected screening test result"

/-- ScreeningProtocol.get_via_result, model/screening.py lines 345-349. -/
def Model.get_via_result (m : Model) : Except String (ScreeningTestResult × Rng) :=
  ViaScreeningTest.get_result m.params.via m.max_hpv_state m.cancer m.rng

/-- ScreeningProtocol.get_dna_result, model/screening.py lines 351-357. -/
def Model.get_dna_result (m : Model) : (HpvStrain → ScreeningTestResult) × Rng :=
  DnaScreeningTest.get_result m.params.dna m.hpv_strains m.rng

/-- ScreeningProtocol.get_cancer_inspection_result, model/screening.py
lines 369-372. -/
def Model.get_cancer_inspection_result (m : Model) :
    Except String (ScreeningTestResult × Rng) :=
  CancerInspectionScreeningTest.get_result m.params.cancer_inspection m.cancer m.rng

namespace ViaScreeningProtocol

/-- ViaScreeningProtocol.apply for one agent, model/screening.py lines 386-425:
skip when not due or not compliant; otherwise update last_screen_age, record
the (surveillance or screening) VIA event, run the VIA test and branch:
NEGATIVE resets to ROUTINE, POSITIVE treats CIN and moves to SURVEILLANCE,
CANCER detects cancer and moves to SURVEILLANCE. -/
def apply (m : Model) : Except String Model :=
  if ¬ is_due_for_screening m then .ok m
  else if ¬ is_compliant_with_screening m then .ok m
  else
    let m := { m with last_screen_age := some m.age }
    let event :=
      if m.screening_state = ScreeningState.SURVEILLANCE then
        Event.SURVEILLANCE_VIA
      else Event.SCREENING_VIA
    let m := m.record_event event m.params.via.cost
    match m.get_via_result with
    | .error e => .error e
    | .ok (result, rng) =>
      let m := { m with rng := rng }
      match result with
      | ScreeningTestResult.NEGATIVE =>
        .ok { m with screening_state := ScreeningState.ROUTINE }
      | ScreeningTestResult.POSITIVE =>
        .ok { m.treat_cin with screening_state := ScreeningState.SURVEILLANCE }
      | ScreeningTestResult.CANCER =>
        .ok { m.detect_cancer with screening_state := ScreeningState.SURVEILLANCE }

end ViaScreeningProtocol

/-- The shared second stage of the DNA-based protocols after a positive DNA
call that is routed to cancer inspection, model/screening.py lines 459-491
(identical in lines 529-560 and 630-660): record the cancer-inspection event,
run the inspection test, then NEGATIVE treats CIN and moves to SURVEILLANCE,
CANCER detects cancer and moves to SURVEILLANCE, and any other result hits the
NotImplementedError branch. -/
def inspectionBranch (m : Model) : Except String Model :=
  -- the branch on the cancer-inspection result shared verbatim by the three
  -- DNA-based protocols, after the cancer-inspection event has been recorded

  match m.get_cancer_inspection_result with
  | .error e => .error e
  | .ok (result, rng) =>
    let m := { m with rng := rng }
    match result with
    | ScreeningTestResult.NEGATIVE =>
      .ok { m.treat_cin with screening_state := ScreeningState.SURVEILLANCE }
    | ScreeningTestResult.CANCER =>
      .ok { m.detect_cancer with screening_state := ScreeningState.SURVEILLANCE }
    | ScreeningTestResult.POSITIVE => .error unexpectedResultMsg

def cancerInspectionStage (m : Model) : Except String Model :=
  let event2 :=
    if m.screening_state = ScreeningState.SURVEILLANCE then
      Event.SURVEILLANCE_CANCER_INSPECTION
    else Event.SCREENING_CANCER_INSPECTION
  inspectionBranch (m.record_event event2 m.params.cancer_inspection.cost)

namespace DnaThenTreatmentScreeningProtocol

/-- DnaThenTreatmentScreeningProtocol.apply for one agent, model/screening.py
lines 428-491: skip when not due or not compliant; otherwise update
last_screen_age, record the DNA event, run the DNA test; an all-NEGATIVE
result resets to ROUTINE, any positive strain routes to the cancer-inspection
stage. -/
def apply (m : Model) : Except String Model :=
  if ¬ is_due_for_screening m then .ok m
  else if ¬ is_compliant_with_screening m then .ok m
  else
    let m := { m with last_screen_age := some m.age }
    let event :=
      if m.screening_state = ScreeningState.SURVEILLANCE then
        Event.SURVEILLANCE_DNA
      else Event.SCREENING_DNA
    let m := m.record_event event m.params.dna.cost
    let (result, rng) := m.get_dna_result
    let m := { m with rng := rng }
    if allStrains.all (fun s => result s = ScreeningTestResult.NEGATIVE) then
      .ok { m with screening_state := ScreeningState.ROUTINE }
    else
      cancerInspectionStage m

end DnaThenTreatmentScreeningProtocol

namespace DnaThenViaScreeningProtocol

/-- DnaThenViaScreeningProtocol.apply for one agent, model/screening.py
lines 494-592: as DnaThenTreatment, but only a POSITIVE result for strain
SIXTEEN or EIGHTEEN routes to the cancer-inspection stage; any other positive
DNA result routes to a VIA test whose NEGATIVE moves to RE_TEST, POSITIVE
treats CIN and moves to SURVEILLANCE, CANCER detects cancer and moves to
SURVEILLANCE. -/
def apply (m : Model) : Except String Model :=
  if ¬ is_due_for_screening m then .ok m
  else if ¬ is_compliant_with_screening m then .ok m
  else
    let m := { m with last_screen_age := some m.age }
    let event :=
      if m.screening_state = ScreeningState.SURVEILLANCE then
        Event.SURVEILLANCE_DNA
      else Event.SCREENING_DNA
    let m := m.record_event event m.params.dna.cost
    let (result, rng) := m.get_dna_result
    let m := { m with rng := rng }
    if allStrains.all (fun s => result s = ScreeningTestResult.NEGATIVE) then
      .ok { m with screening_state := ScreeningState.ROUTINE }
    else if result HpvStrain.SIXTEEN = ScreeningTestResult.POSITIVE ∨
        result HpvStrain.EIGHTEEN = ScreeningTestResult.POSITIVE then
      cancerInspectionStage m
    else
      let event2 :=
        if m.screening_state = ScreeningState.SURVEILLANCE then
          Event.SURVEILLANCE_VIA
        else Event.SCREENING_VIA
      let m := m.record_event event2 m.params.via.cost
      match m.get_via_result with
      | .error e => .error e
      | .ok (result, rng) =>
        let m := { m with rng := rng }
        match result with
        | ScreeningTestResult.NEGATIVE =>
          .ok { m with screening_state := ScreeningState.RE_TEST }
        | ScreeningTestResult.POSITIVE =>
          .ok { m.treat_cin with screening_state := ScreeningState.SURVEILLANCE }
        | ScreeningTestResult.CANCER =>
          .ok { m.detect_cancer with screening_state := ScreeningState.SURVEILLANCE }

end DnaThenViaScreeningProtocol

namespace DnaThenTriageScreeningProtocol

/-- DnaThenTriageScreeningProtocol.apply for one agent, model/screening.py
lines 595-662: as DnaThenVia, except the branch for a positive DNA result with
neither SIXTEEN nor EIGHTEEN positive sets RE_TEST directly with no VIA test. -/
def apply (m : Model) : Except String Model :=
  if ¬ is_due_for_screening m then .ok m
  else if ¬ is_compliant_with_screening m then .ok m
  else
    let m := { m with last_screen_age := some m.age }
    let event :=
      if m.screening_state = ScreeningState.SURVEILLANCE then
        Event.SURVEILLANCE_DNA
      else Event.SCREENING_DNA
    let m := m.record_event event m.params.dna.cost
    let (result, rng) := m.get_dna_result
    let m := { m with rng := rng }
    if allStrains.all (fun s => result s = ScreeningTestResult.NEGATIVE) then
      .ok { m with screening_state := ScreeningState.ROUTINE }
    else if result HpvStrain.SIXTEEN = ScreeningTestResult.POSITIVE ∨
        result HpvStrain.EIGHTEEN = ScreeningTestResult.POSITIVE then
      cancerInspectionStage m
    else
      .ok { m with screening_state := ScreeningState.RE_TEST }

end DnaThenTriageScreeningProtocol

/-- The Python exception raised when evaluating ScreeningState.COLPOSCOPY:
the ScreeningState enum of model/screening.py lines 20-24 has no COLPOSCOPY
member, so the attribute lookup fails at the return statement. -/
def colposcopyAttributeErrorMsg : String :=
  "AttributeError: ScreeningState has no member COLPOSCOPY"

namespace ScreeningStrategy

/-- ScreeningStrategy.triage_cytology_results, model/screening.py
lines 706-723, with the true cervical lesion state the method reads from the
model passed explicitly.  A NEGATIVE result is ROUTINE; ASCUS is RE_TEST;
LSIL/ASCH/HSIL execute a return of ScreeningState.COLPOSCOPY, which raises
AttributeError because the enum lacks that member; everything else falls to the
default RE_TEST. -/
def triage_cytology_results (cytology_state : CervicalLesionState)
    (result : ScreeningTestResult) : Except String ScreeningState :=
  if result = ScreeningTestResult.NEGATIVE then
    .ok ScreeningState.ROUTINE
  else if cytology_state = CervicalLesionState.ASCUS then
    .ok ScreeningState.RE_TEST
  else if cytology_state = CervicalLesionState.LSIL ∨
      cytology_state = CervicalLesionState.ASCH ∨
      cytology_state = CervicalLesionState.HSIL then
    .error colposcopyAttributeErrorMsg
  else
    .ok ScreeningState.RE_TEST

/-- ScreeningStrategy.triage_dna_results, model/screening.py lines 725-737:
all four strain results NEGATIVE is ROUTINE; a POSITIVE for SIXTEEN or EIGHTEEN
executes a return of ScreeningState.COLPOSCOPY, which raises AttributeError;
anything else is RE_TEST. -/
def triage_dna_results (result : HpvStrain → ScreeningTestResult) :
    Except String ScreeningState :=
  if allStrains.all (fun s => result s = ScreeningTestResult.NEGATIVE) then
    .ok ScreeningState.ROUTINE
  else if result HpvStrain.SIXTEEN = ScreeningTestResult.POSITIVE ∨
      result HpvStrain.EIGHTEEN = ScreeningTestResult.POSITIVE then
    .error colposcopyAttributeErrorMsg
  else
    .ok ScreeningState.RE_TEST

/-- ScreeningStrategy.triage_cotest_results, model/screening.py lines 739-779,
with the true cervical lesion state the method reads from the model passed
explicitly.  A NEGATIVE co-test is ROUTINE; otherwise the branches on hr_hpv,
the cytology result, hpv_16_18 and the lesion state follow the source, where
each branch that returns ScreeningState.COLPOSCOPY raises AttributeError and
the uncovered combinations default to RE_TEST. -/
def triage_cotest_results (cotest_result cytology_result : ScreeningTestResult)
    (hr_hpv_result hpv_16_18_result : Bool)
    (cytology_state : CervicalLesionState) : Except String ScreeningState :=
  if cotest_result = ScreeningTestResult.NEGATIVE then
    .ok ScreeningState.ROUTINE
  else
    if hr_hpv_result ∧ cytology_result = ScreeningTestResult.NEGATIVE then
      if hpv_16_18_result then .error colposcopyAttributeErrorMsg
      else .ok ScreeningState.RE_TEST
    else if hr_hpv_result ∧ cytology_result = ScreeningTestResult.POSITIVE then
      .error colposcopyAttributeErrorMsg
    else if ¬ hr_hpv_result ∧ cytology_result = ScreeningTestResult.POSITIVE then
      if cytology_state = CervicalLesionState.ASCH ∨
          cytology_state = CervicalLesionState.LSIL ∨
          cytology_state = CervicalLesionState.HSIL then
        .error colposcopyAttributeErrorMsg
      else if cytology_state = CervicalLesionState.ASCUS then
        .ok ScreeningState.RE_TEST
      else
        .ok ScreeningState.RE_TEST
    else
      .ok ScreeningState.RE_TEST

end ScreeningStrategy

/-- A sample parameter set for concrete evaluations.  The values are
division-free rationals so that concrete runs reduce by computation; the
theorems themselves never constrain the parameters to the unit interval. -/
def sampleParams : ScreeningParameters :=
  { via := { sensitivity := 10, specificity := 10, cost := 5 }
    dna := { sensitivity := 10, specificity := 10, cost := 10 }
    cytology := { sensitivity := 10, specificity := 10, cost := 8 }
    cotest := { sensitivity := 10, specificity := 10, cost := 15 }
    cancer_inspection := { sensitivity := 10, specificity := 10, cost := 20 }
    age_routine_start := 25
    age_routine_end := 65
    interval_routine := 3
    interval_re_test := 1
    interval_surveillance := 1
    interval_hiv := 2 }

/-- A sample draw stream: draw n is the rational n, so draw 0 falls below
every positive sensitivity of sampleParams and later draws stay below its
specificities. -/
def sampleRng : Rng := ⟨fun n => (n : ℚ), 0⟩

/-- A sample agent: a 32-year-old woman in ROUTINE state, never screened, no
cancer, SIXTEEN strain at CIN_1 and all other strains NORMAL, compliant. -/
def sampleModel : Model :=
  { uid := 7
    time := 12
    age := 32
    params := sampleParams
    screening_state := ScreeningState.ROUTINE
    cancer_detection := CancerDetectionState.UNDETECTED
    hiv_detected := false
    last_screen_age := none
    compliant_routine_state := true
    compliant_surveillance_state := true
    max_hpv_state := HpvState.CIN_1
    cancer := CancerState.NORMAL
    hpv_strains := fun s => if s = HpvStrain.SIXTEEN then HpvState.CIN_1 else HpvState.NORMAL
    cervical_lesion := CervicalLesionState.LSIL
    events := []
    treat_cin_calls := 0
    detect_cancer_calls := 0
    rng := sampleRng }

/-- Boolean success test for an embedded Python call: true when the call
returns a value rather than raising. -/
def isOkB {ε α : Type} (x : Except ε α) : Bool :=
  match x with
  | .ok _ => true
  | .error _ => false

/-- An agent in the error-triggering set of C3: her cancer state is DEAD, her
strain states and lesion state are NORMAL. -/
def deadAgentModel : Model :=
  { sampleModel with
    cancer := CancerState.DEAD
    max_hpv_state := HpvState.NORMAL
    hpv_strains := fun _ => HpvState.NORMAL
    cervical_lesion := CervicalLesionState.NORMAL }

theorem allStrains_all_iff (p : HpvStrain → Prop) [DecidablePred p] :
    (allStrains.all fun s => p s) = true ↔ ∀ s, p s := by
  simp only [allStrains, List.all_cons, List.all_nil, Bool.and_true,
    Bool.and_eq_true, decide_eq_true_eq]
  constructor
  · rintro ⟨h1, h2, h3, h4⟩ s
    cases s <;> assumption
  · intro h
    exact ⟨h _, h _, h _, h _⟩

theorem allStrains_any_iff (p : HpvStrain → Prop) [DecidablePred p] :
    (allStrains.any fun s => p s) = true ↔ ∃ s, p s := by
  simp only [allStrains, List.any_cons, List.any_nil, Bool.or_false,
    Bool.or_eq_true, decide_eq_true_eq]
  constructor
  · rintro (h | h | h | h) <;> exact ⟨_, h⟩
  · rintro ⟨s, h⟩
    cases s <;> tauto

/-- C1: the claim evaluated on the code.  The triage calls of the claim hit a
return of ScreeningState.COLPOSCOPY, and the ScreeningState enum of
model/screening.py lines 20-24 has no COLPOSCOPY member, so both calls raise
AttributeError instead of returning a screening state. -/
theorem C1_triage_colposcopy_raises :
    ScreeningStrategy.triage_cytology_results CervicalLesionState.LSIL
        ScreeningTestResult.POSITIVE = .error colposcopyAttributeErrorMsg ∧
    ScreeningStrategy.triage_dna_results
        (fun s => if s = HpvStrain.SIXTEEN then ScreeningTestResult.POSITIVE
          else ScreeningTestResult.NEGATIVE) = .error colposcopyAttributeErrorMsg := by
  constructor <;> rfl

/-- C7: an agent whose cancer detection state is DETECTED is never due for
screening, regardless of every other field of the model. -/
theorem C7_detected_never_due (m : Model)
    (h : m.cancer_detection = CancerDetectionState.DETECTED) :
    is_due_for_screening m = false := by
  unfold is_due_for_screening
  rw [h]
  simp

/-- Witness for C7 at a concrete agent. -/
theorem C7_detected_never_due_witness :
    ({ sampleModel with cancer_detection := CancerDetectionState.DETECTED } : Model).cancer_detection
        = CancerDetectionState.DETECTED ∧
    is_due_for_screening
        { sampleModel with cancer_detection := CancerDetectionState.DETECTED } = false :=
  ⟨rfl, C7_detected_never_due _ rfl⟩

/-- C8: every input combination not covered by a triage decision table
defaults to RE_TEST and does not raise: a non-NEGATIVE cytology result with the
unlisted NORMAL lesion state; a positive DNA result with neither SIXTEEN nor
EIGHTEEN positive; a positive co-test with hr_hpv false and a non-POSITIVE
cytology result, and the inner default of a positive cytology with hr_hpv false
and the unlisted NORMAL lesion state. -/
theorem C8_triage_uncovered_default_re_test :
    (∀ r : ScreeningTestResult, r ≠ ScreeningTestResult.NEGATIVE →
      ScreeningStrategy.triage_cytology_results CervicalLesionState.NORMAL r
        = .ok ScreeningState.RE_TEST) ∧
    (∀ f : HpvStrain → ScreeningTestResult, (∃ s, f s ≠ ScreeningTestResult.NEGATIVE) →
      f HpvStrain.SIXTEEN ≠ ScreeningTestResult.POSITIVE →
      f HpvStrain.EIGHTEEN ≠ ScreeningTestResult.POSITIVE →
      ScreeningStrategy.triage_dna_results f = .ok ScreeningState.RE_TEST) ∧
    (∀ (cotest cyt : ScreeningTestResult) (h1618 : Bool) (lesion : CervicalLesionState),
      cotest ≠ ScreeningTestResult.NEGATIVE → cyt ≠ ScreeningTestResult.POSITIVE →
      ScreeningStrategy.triage_cotest_results cotest cyt false h1618 lesion
        = .ok ScreeningState.RE_TEST) ∧
    (∀ (cotest : ScreeningTestResult) (h1618 : Bool),
      cotest ≠ ScreeningTestResult.NEGATIVE →
      ScreeningStrategy.triage_cotest_results cotest ScreeningTestResult.POSITIVE
        false h1618 CervicalLesionState.NORMAL = .ok ScreeningState.RE_TEST) := by
  refine ⟨?_, ?_, ?_, ?_⟩
  · intro r hr
    cases r <;> simp_all [ScreeningStrategy.triage_cytology_results]
  · intro f hex h16 h18
    have hall : ¬ ((allStrains.all fun s => f s = ScreeningTestResult.NEGATIVE) = true) := by
      rw [allStrains_all_iff]
      rcases hex with ⟨s, hs⟩
      intro h
      exact hs (h s)
    unfold ScreeningStrategy.triage_dna_results
    rw [if_neg hall, if_neg]
    rintro (h | h)
    · exact h16 h
    · exact h18 h
  · intro cotest cyt h1618 lesion hco hcyt
    cases cotest <;> cases cyt <;> simp_all [ScreeningStrategy.triage_cotest_results]
  · intro cotest h1618 hco
    cases cotest <;> simp_all [ScreeningStrategy.triage_cotest_results]

/-- Witness for C8 at concrete uncovered inputs. -/
theorem C8_triage_uncovered_default_re_test_witness :
    ScreeningStrategy.triage_cytology_results CervicalLesionState.NORMAL
        ScreeningTestResult.POSITIVE = .ok ScreeningState.RE_TEST ∧
    ScreeningStrategy.triage_dna_results
        (fun s => if s = HpvStrain.HIGH_RISK then ScreeningTestResult.POSITIVE
          else ScreeningTestResult.NEGATIVE) = .ok ScreeningState.RE_TEST ∧
    ScreeningStrategy.triage_cotest_results ScreeningTestResult.POSITIVE
        ScreeningTestResult.NEGATIVE false false CervicalLesionState.NORMAL
        = .ok ScreeningState.RE_TEST ∧
    ScreeningStrategy.triage_cotest_results ScreeningTestResult.POSITIVE
        ScreeningTestResult.POSITIVE false false CervicalLesionState.NORMAL
        = .ok ScreeningState.RE_TEST := by
  refine ⟨?_, ?_, ?_, ?_⟩
  · exact C8_triage_uncovered_default_re_test.1 _ (by decide)
  · exact C8_triage_uncovered_default_re_test.2.1 _
      ⟨HpvStrain.HIGH_RISK, by decide⟩ (by decide) (by decide)
  · exact C8_triage_uncovered_default_re_test.2.2.1 _ _ false
      CervicalLesionState.NORMAL (by decide) (by decide)
  · exact C8_triage_uncovered_default_re_test.2.2.2 _ false (by decide)

theorem cytology_get_result_ok (p : TestParams) (l : CervicalLesionState)
    (rng : Rng) :
    ∃ r, CytologyScreeningTest.get_result p l rng = .ok (r, rng.bump) := by
  cases l <;>
    simp only [CytologyScreeningTest.get_result, Rng.random, Rng.bump] <;>
    simp <;> split <;> exact ⟨_, rfl⟩

theorem dna_get_result_rng (p : TestParams) (states : HpvStrain → HpvState)
    (rng : Rng) :
    (DnaScreeningTest.get_result p states rng).2 = rng.bump := by
  simp only [DnaScreeningTest.get_result, Rng.random, Rng.bump,
    apply_ite Prod.snd, ite_self]

/-- C4: when SIXTEEN, EIGHTEEN and HIGH_RISK are all truly NORMAL, a draw not
exceeding the specificity yields NEGATIVE for all four strains, and a draw
exceeding it (the false-positive branch) yields POSITIVE for HIGH_RISK and
NEGATIVE for SIXTEEN, EIGHTEEN and LOW_RISK. -/
theorem C4_dna_all_normal (params : TestParams) (states : HpvStrain → HpvState)
    (rng : Rng)
    (h16 : states HpvStrain.SIXTEEN = HpvState.NORMAL)
    (h18 : states HpvStrain.EIGHTEEN = HpvState.NORMAL)
    (hhr : states HpvStrain.HIGH_RISK = HpvState.NORMAL) :
    (¬ rng.draws rng.idx > params.specificity →
      ∀ s, (DnaScreeningTest.get_result params states rng).1 s
        = ScreeningTestResult.NEGATIVE) ∧
    (rng.draws rng.idx > params.specificity →
      (DnaScreeningTest.get_result params states rng).1 HpvStrain.HIGH_RISK
          = ScreeningTestResult.POSITIVE ∧
      (DnaScreeningTest.get_result params states rng).1 HpvStrain.SIXTEEN
          = ScreeningTestResult.NEGATIVE ∧
      (DnaScreeningTest.get_result params states rng).1 HpvStrain.EIGHTEEN
          = ScreeningTestResult.NEGATIVE ∧
      (DnaScreeningTest.get_result params states rng).1 HpvStrain.LOW_RISK
          = ScreeningTestResult.NEGATIVE) := by
  constructor
  · intro hd s
    simp [DnaScreeningTest.get_result, detectable, Rng.random, h16, h18, hhr, hd]
  · intro hd
    simp [DnaScreeningTest.get_result, detectable, Rng.random, h16, h18, hhr, hd]

/-- Witness for C4 at a concrete all-NORMAL agent and the sample stream. -/
theorem C4_dna_all_normal_witness :
    ((fun _ => HpvState.NORMAL) HpvStrain.SIXTEEN = HpvState.NORMAL) ∧
    ((¬ sampleRng.draws sampleRng.idx > sampleParams.dna.specificity →
      ∀ s, (DnaScreeningTest.get_result sampleParams.dna (fun _ => HpvState.NORMAL)
        sampleRng).1 s = ScreeningTestResult.NEGATIVE) ∧
    (sampleRng.draws sampleRng.idx > sampleParams.dna.specificity →
      (DnaScreeningTest.get_result sampleParams.dna (fun _ => HpvState.NORMAL)
          sampleRng).1 HpvStrain.HIGH_RISK = ScreeningTestResult.POSITIVE ∧
      (DnaScreeningTest.get_result sampleParams.dna (fun _ => HpvState.NORMAL)
          sampleRng).1 HpvStrain.SIXTEEN = ScreeningTestResult.NEGATIVE ∧
      (DnaScreeningTest.get_result sampleParams.dna (fun _ => HpvState.NORMAL)
          sampleRng).1 HpvStrain.EIGHTEEN = ScreeningTestResult.NEGATIVE ∧
      (DnaScreeningTest.get_result sampleParams.dna (fun _ => HpvState.NORMAL)
          sampleRng).1 HpvStrain.LOW_RISK = ScreeningTestResult.NEGATIVE)) :=
  ⟨rfl, C4_dna_all_normal sampleParams.dna (fun _ => HpvState.NORMAL) sampleRng
    rfl rfl rfl⟩

theorem cotest_get_result_never_ok (age : ℚ) (c : CytologyIntCallOutcome) :
    isOkB (CoTestScreeningTest.get_result age c) = false := by
  unfold CoTestScreeningTest.get_result
  split
  · rfl
  · cases c <;> rfl

/-- Counterexample to C3 as stated: for an agent with cancer state DEAD (a
member of the error-triggering set), the cytology test model, applied to her
lesion state as its signature prescribes, returns a result normally, and so
does the DNA test model; neither raises, because neither takes the cancer
state as an input. -/
theorem C3_counterexample :
    deadAgentModel.cancer = CancerState.DEAD ∧
    isOkB (CytologyScreeningTest.get_result deadAgentModel.params.cytology
      deadAgentModel.cervical_lesion deadAgentModel.rng) = true ∧
    (DnaScreeningTest.get_result deadAgentModel.params.dna
      deadAgentModel.hpv_strains deadAgentModel.rng).1 HpvStrain.EIGHTEEN
      = ScreeningTestResult.NEGATIVE := by
  refine ⟨rfl, ?_, ?_⟩
  · decide
  · decide

/-- C3 amended: only the test models that receive the cancer state raise on
the error-triggering set: the VIA test raises on every input of the set, and
the cancer inspection test raises when the cancer state is DEAD.  The DNA and
cytology test models do not take the cancer state as input and return results
for such agents, and the co-test model raises for every agent whatever her
true state, because its sub-test calls pass the agent id in place of the true
states, not because of the error-triggering set. -/
theorem C3_amended_error_set (m : Model)
    (h : m.cancer = CancerState.DEAD ∨
      (m.max_hpv_state = HpvState.CANCER ∧ m.cancer = CancerState.NORMAL)) :
    m.get_via_result = .error "ValueError" ∧
    (m.cancer = CancerState.DEAD → m.get_cancer_inspection_result = .error "ValueError") ∧
    (∃ r, CytologyScreeningTest.get_result m.params.cytology m.cervical_lesion
      m.rng = .ok (r, m.rng.bump)) ∧
    (∃ res rng2, DnaScreeningTest.get_result m.params.dna m.hpv_strains m.rng
      = (res, rng2)) ∧
    (∀ c : CytologyIntCallOutcome,
      isOkB (CoTestScreeningTest.get_result m.age c) = false) := by
  refine ⟨?_, ?_, ?_, ⟨_, _, rfl⟩, fun c => cotest_get_result_never_ok m.age c⟩
  · rcases h with h | ⟨h1, h2⟩
    · simp [Model.get_via_result, ViaScreeningTest.get_result, h]
    · simp [Model.get_via_result, ViaScreeningTest.get_result, h1, h2]
  · intro hd
    simp [Model.get_cancer_inspection_result,
      CancerInspectionScreeningTest.get_result, hd]
  · exact cytology_get_result_ok m.params.cytology m.cervical_lesion m.rng

/-- Witness for the amended C3 at the concrete dead agent. -/
theorem C3_amended_error_set_witness :
    (deadAgentModel.cancer = CancerState.DEAD ∨
      (deadAgentModel.max_hpv_state = HpvState.CANCER ∧
        deadAgentModel.cancer = CancerState.NORMAL)) ∧
    (deadAgentModel.get_via_result = .error "ValueError" ∧
    (deadAgentModel.cancer = CancerState.DEAD →
      deadAgentModel.get_cancer_inspection_result = .error "ValueError") ∧
    (∃ r, CytologyScreeningTest.get_result deadAgentModel.params.cytology
      deadAgentModel.cervical_lesion deadAgentModel.rng
      = .ok (r, deadAgentModel.rng.bump)) ∧
    (∃ res rng2, DnaScreeningTest.get_result deadAgentModel.params.dna
      deadAgentModel.hpv_strains deadAgentModel.rng = (res, rng2)) ∧
    (∀ c : CytologyIntCallOutcome,
      isOkB (CoTestScreeningTest.get_result deadAgentModel.age c) = false)) :=
  ⟨Or.inl rfl, C3_amended_error_set deadAgentModel (Or.inl rfl)⟩

theorem cancer_inspection_cases (p : TestParams) (cs : CancerState) (rng : Rng) :
    (cs = CancerState.DEAD ∧
      CancerInspectionScreeningTest.get_result p cs rng = .error "ValueError") ∨
    (∃ r, CancerInspectionScreeningTest.get_result p cs rng = .ok (r, rng.bump) ∧
      (r = ScreeningTestResult.NEGATIVE ∨ r = ScreeningTestResult.CANCER)) := by
  unfold CancerInspectionScreeningTest.get_result
  cases cs <;> simp [Rng.random, Rng.bump] <;> split <;> simp

theorem via_get_result_cases (p : TestParams) (h : HpvState) (c : CancerState)
    (rng : Rng) :
    ViaScreeningTest.get_result p h c rng = .error "ValueError" ∨
    ∃ r rng', ViaScreeningTest.get_result p h c rng = .ok (r, rng') := by
  unfold ViaScreeningTest.get_result
  repeat' split
  all_goals simp

theorem via_result_not_cancer (p : TestParams) (h : HpvState) (c : CancerState)
    (rng : Rng) (r : ScreeningTestResult) (rng' : Rng)
    (hh : h ≠ HpvState.CANCER)
    (heq : ViaScreeningTest.get_result p h c rng = .ok (r, rng')) :
    r = ScreeningTestResult.NEGATIVE ∨ r = ScreeningTestResult.POSITIVE := by
  unfold ViaScreeningTest.get_result at heq
  cases h <;> repeat' split at heq
  all_goals simp_all

theorem inspectionBranch_ne_unexpected (m : Model) :
    inspectionBranch m ≠ .error unexpectedResultMsg := by
  intro h
  unfold inspectionBranch Model.get_cancer_inspection_result at h
  rcases cancer_inspection_cases m.params.cancer_inspection m.cancer m.rng with
    ⟨_, heq⟩ | ⟨r, heq, hr⟩
  · rw [heq] at h
    simp [unexpectedResultMsg] at h
  · rw [heq] at h
    rcases hr with rfl | rfl <;> simp at h

theorem cancerInspectionStage_ne_unexpected (m : Model) :
    cancerInspectionStage m ≠ .error unexpectedResultMsg := by
  unfold cancerInspectionStage
  exact inspectionBranch_ne_unexpected _

theorem dnaThenTreatment_ne_unexpected (m : Model) :
    DnaThenTreatmentScreeningProtocol.apply m ≠ .error unexpectedResultMsg := by
  intro h
  unfold DnaThenTreatmentScreeningProtocol.apply at h
  repeat'
    first
      | exact cancerInspectionStage_ne_unexpected _ h
      | split at h
      | simp at h

theorem dnaThenTriage_ne_unexpected (m : Model) :
    DnaThenTriageScreeningProtocol.apply m ≠ .error unexpectedResultMsg := by
  intro h
  unfold DnaThenTriageScreeningProtocol.apply at h
  repeat'
    first
      | exact cancerInspectionStage_ne_unexpected _ h
      | split at h
      | simp at h

theorem model_get_via_result_error (m : Model) (e : String)
    (heq : m.get_via_result = .error e) : e = "ValueError" := by
  unfold Model.get_via_result at heq
  rcases via_get_result_cases m.params.via m.max_hpv_state m.cancer m.rng with
    hv | ⟨r, rng2, hv⟩
  · rw [hv] at heq
    exact (Except.error.inj heq).symm
  · rw [hv] at heq
    simp at heq

theorem dnaThenVia_ne_unexpected (m : Model) :
    DnaThenViaScreeningProtocol.apply m ≠ .error unexpectedResultMsg := by
  intro h
  unfold DnaThenViaScreeningProtocol.apply at h
  repeat'
    first
      | exact cancerInspectionStage_ne_unexpected _ h
      | split at h
      | simp at h
  all_goals
    (rename_i heqv
     have hve := model_get_via_result_error _ _ heqv
     simp_all [unexpectedResultMsg])

/-- C6: for every non-DEAD cancer state the cancer inspection test returns a
result that is NEGATIVE or CANCER, never POSITIVE, and consequently none of the
three DNA-based protocols can ever return the NotImplementedError of the
unexpected-result branch that follows their cancer-inspection call. -/
theorem C6_cancer_inspection_never_positive :
    (∀ (p : TestParams) (cs : CancerState) (rng : Rng), cs ≠ CancerState.DEAD →
      ∃ r rng', CancerInspectionScreeningTest.get_result p cs rng = .ok (r, rng') ∧
        (r = ScreeningTestResult.NEGATIVE ∨ r = ScreeningTestResult.CANCER)) ∧
    (∀ m : Model, DnaThenTreatmentScreeningProtocol.apply m ≠ .error unexpectedResultMsg) ∧
    (∀ m : Model, DnaThenViaScreeningProtocol.apply m ≠ .error unexpectedResultMsg) ∧
    (∀ m : Model, DnaThenTriageScreeningProtocol.apply m ≠ .error unexpectedResultMsg) := by
  refine ⟨?_, dnaThenTreatment_ne_unexpected, dnaThenVia_ne_unexpected,
    dnaThenTriage_ne_unexpected⟩
  intro p cs rng hcs
  rcases cancer_inspection_cases p cs rng with ⟨hd, _⟩ | ⟨r, heq, hr⟩
  · exact absurd hd hcs
  · exact ⟨r, rng.bump, heq, hr⟩

/-- Witness for C6 at a concrete non-DEAD cancer state. -/
theorem C6_cancer_inspection_never_positive_witness :
    CancerState.NORMAL ≠ CancerState.DEAD ∧
    ∃ r rng', CancerInspectionScreeningTest.get_result
        sampleParams.cancer_inspection CancerState.NORMAL sampleRng = .ok (r, rng') ∧
      (r = ScreeningTestResult.NEGATIVE ∨ r = ScreeningTestResult.CANCER) :=
  ⟨by decide, C6_cancer_inspection_never_positive.1 sampleParams.cancer_inspection
    CancerState.NORMAL sampleRng (by decide)⟩

/-- C10: for every HPV state other than CANCER the VIA test can only return
NEGATIVE or POSITIVE, never CANCER, and consequently the VIA-only protocol
never invokes detect_cancer on an agent whose worst HPV state is below
CANCER. -/
theorem C10_via_never_cancer :
    (∀ (p : TestParams) (h : HpvState) (c : CancerState) (rng : Rng)
        (r : ScreeningTestResult) (rng' : Rng),
      (h = HpvState.NORMAL ∨ h = HpvState.HPV ∨ h = HpvState.CIN_1 ∨
        h = HpvState.CIN_2_3) →
      ViaScreeningTest.get_result p h c rng = .ok (r, rng') →
      (r = ScreeningTestResult.NEGATIVE ∨ r = ScreeningTestResult.POSITIVE)) ∧
    (∀ m m' : Model, m.max_hpv_state ≠ HpvState.CANCER →
      ViaScreeningProtocol.apply m = .ok m' →
      m'.detect_cancer_calls = m.detect_cancer_calls) := by
  constructor
  · intro p h c rng r rng' hh heq
    refine via_result_not_cancer p h c rng r rng' ?_ heq
    rcases hh with rfl | rfl | rfl | rfl <;> simp
  · intro m m' hm happ
    unfold ViaScreeningProtocol.apply at happ
    split at happ
    · simp only [Except.ok.injEq] at happ
      subst happ
      rfl
    · split at happ
      · simp only [Except.ok.injEq] at happ
        subst happ
        rfl
      · dsimp only at happ
        split at happ
        · simp at happ
        · rename_i result rng2 heqv
          have hnc := via_result_not_cancer _ _ _ _ _ _
            (fun hc => hm hc) heqv
          split at happ
          · simp only [Except.ok.injEq] at happ
            rw [← happ]
            simp [Model.record_event, Model.treat_cin, Model.detect_cancer]
          · simp only [Except.ok.injEq] at happ
            rw [← happ]
            simp [Model.record_event, Model.treat_cin, Model.detect_cancer]
          · rcases hnc with h1 | h1 <;> simp_all

/-- Witness for C10 at a concrete CIN_1 agent processed by the VIA protocol. -/
theorem C10_via_never_cancer_witness :
    (HpvState.CIN_1 = HpvState.NORMAL ∨ HpvState.CIN_1 = HpvState.HPV ∨
      HpvState.CIN_1 = HpvState.CIN_1 ∨ HpvState.CIN_1 = HpvState.CIN_2_3) ∧
    (ScreeningTestResult.NEGATIVE = ScreeningTestResult.NEGATIVE ∨
      ScreeningTestResult.NEGATIVE = ScreeningTestResult.POSITIVE) := by
  refine ⟨by decide, ?_⟩
  refine C10_via_never_cancer.1 sampleParams.via HpvState.CIN_1 CancerState.NORMAL
    sampleRng ScreeningTestResult.NEGATIVE sampleRng.bump (by decide) ?_
  simp [ViaScreeningTest.get_result, Rng.random, Rng.bump, sampleParams, sampleRng]

/-- C9: an agent who is not due for screening, or not compliant with it, is
skipped by every protocol: apply returns the model unchanged, so her
screening_state and last_screen_age are untouched, no event is recorded, and
neither treat_cin nor detect_cancer is invoked. -/
theorem C9_skip_frame (m : Model)
    (h : is_due_for_screening m = false ∨ is_compliant_with_screening m = false) :
    ViaScreeningProtocol.apply m = .ok m ∧
    DnaThenTreatmentScreeningProtocol.apply m = .ok m ∧
    DnaThenViaScreeningProtocol.apply m = .ok m ∧
    DnaThenTriageScreeningProtocol.apply m = .ok m := by
  rcases h with h | h
  · refine ⟨?_, ?_, ?_, ?_⟩ <;>
      simp [ViaScreeningProtocol.apply, DnaThenTreatmentScreeningProtocol.apply,
        DnaThenViaScreeningProtocol.apply, DnaThenTriageScreeningProtocol.apply, h]
  · cases hd : is_due_for_screening m <;>
      refine ⟨?_, ?_, ?_, ?_⟩ <;>
        simp [ViaScreeningProtocol.apply, DnaThenTreatmentScreeningProtocol.apply,
          DnaThenViaScreeningProtocol.apply, DnaThenTriageScreeningProtocol.apply,
          h, hd]

/-- Witness for C9 at a concrete agent who is not due because her cancer is
already detected. -/
theorem C9_skip_frame_witness :
    (is_due_for_screening { sampleModel with cancer_detection := CancerDetectionState.DETECTED } = false ∨
      is_compliant_with_screening { sampleModel with cancer_detection := CancerDetectionState.DETECTED } = false) ∧
    (ViaScreeningProtocol.apply { sampleModel with cancer_detection := CancerDetectionState.DETECTED }
        = .ok { sampleModel with cancer_detection := CancerDetectionState.DETECTED } ∧
    DnaThenTreatmentScreeningProtocol.apply { sampleModel with cancer_detection := CancerDetectionState.DETECTED }
        = .ok { sampleModel with cancer_detection := CancerDetectionState.DETECTED } ∧
    DnaThenViaScreeningProtocol.apply { sampleModel with cancer_detection := CancerDetectionState.DETECTED }
        = .ok { sampleModel with cancer_detection := CancerDetectionState.DETECTED } ∧
    DnaThenTriageScreeningProtocol.apply { sampleModel with cancer_detection := CancerDetectionState.DETECTED }
        = .ok { sampleModel with cancer_detection := CancerDetectionState.DETECTED }) :=
  ⟨Or.inl rfl, C9_skip_frame _ (Or.inl rfl)⟩

/-- C2: the claim evaluated on the code.  CoTestScreeningTest.get_result never
returns a record: for every age and every outcome of the mistyped cytology
call it raises (the out-of-range ValueError of lines 196-200, the propagated
exception of the cytology call of line 202, or the TypeError from subscripting
the integer agent id inside the DNA call of line 203), so the claimed
true-positive composition of lines 206-222 is never computed; in particular
the in-band call at age 32 raises TypeError. -/
theorem C2_cotest_never_returns :
    (∀ (age : ℚ) (c : CytologyIntCallOutcome),
      isOkB (CoTestScreeningTest.get_result age c) = false) ∧
    CoTestScreeningTest.get_result 32
        (CytologyIntCallOutcome.returns ScreeningTestResult.NEGATIVE sampleRng)
      = .error intSubscriptTypeErrorMsg := by
  refine ⟨cotest_get_result_never_ok, ?_⟩
  rw [CoTestScreeningTest.get_result, if_neg (by norm_num)]

/-- C5: a due, compliant agent whose true SIXTEEN strain is CIN_1, all other
strains NORMAL and cancer state NORMAL, processed by the DNA-then-VIA protocol
with a successful DNA sensitivity draw and a NEGATIVE cancer-inspection draw,
gets exactly two recorded events (the DNA event then the cancer-inspection
event), a final screening state of SURVEILLANCE, one treat_cin invocation and
no detect_cancer invocation. -/
theorem C5_dna_then_via_scenario (m : Model)
    (hdue : is_due_for_screening m = true)
    (hcomp : is_compliant_with_screening m = true)
    (h16 : m.hpv_strains HpvStrain.SIXTEEN = HpvState.CIN_1)
    (h18 : m.hpv_strains HpvStrain.EIGHTEEN = HpvState.NORMAL)
    (hhr : m.hpv_strains HpvStrain.HIGH_RISK = HpvState.NORMAL)
    (_hlr : m.hpv_strains HpvStrain.LOW_RISK = HpvState.NORMAL)
    (hcancer : m.cancer = CancerState.NORMAL)
    (hsens : m.rng.draws m.rng.idx < m.params.dna.sensitivity)
    (hinsp : ¬ m.rng.draws (m.rng.idx + 1) > m.params.cancer_inspection.specificity) :
    ∃ e1 e2 m', DnaThenViaScreeningProtocol.apply m = .ok m' ∧
      m'.events = m.events ++
        [(m.time, m.uid, e1, m.params.dna.cost),
         (m.time, m.uid, e2, m.params.cancer_inspection.cost)] ∧
      (e1 = Event.SCREENING_DNA ∨ e1 = Event.SURVEILLANCE_DNA) ∧
      (e2 = Event.SCREENING_CANCER_INSPECTION ∨
        e2 = Event.SURVEILLANCE_CANCER_INSPECTION) ∧
      m'.screening_state = ScreeningState.SURVEILLANCE ∧
      m'.treat_cin_calls = m.treat_cin_calls + 1 ∧
      m'.detect_cancer_calls = m.detect_cancer_calls := by
  have hdna : DnaScreeningTest.get_result m.params.dna m.hpv_strains m.rng =
      (fun s => if s = HpvStrain.SIXTEEN then ScreeningTestResult.POSITIVE
        else ScreeningTestResult.NEGATIVE, m.rng.bump) := by
    have hns : (detectable.all fun s => m.hpv_strains s = HpvState.NORMAL) = false := by
      simp [detectable, h16]
    simp only [DnaScreeningTest.get_result, Rng.random, Rng.bump, hns,
      Bool.false_eq_true, false_and, if_false, hsens, if_true, Prod.mk.injEq,
      and_true]
    funext s
    cases s <;> simp [detectable, h16, h18, hhr]
  unfold DnaThenViaScreeningProtocol.apply
  rw [if_neg (by simp [hdue]), if_neg (by simp [hcomp])]
  dsimp only [Model.get_dna_result, Model.record_event]
  rw [hdna]
  dsimp only
  rw [if_neg (by decide), if_pos (by decide)]
  unfold cancerInspectionStage inspectionBranch Model.get_cancer_inspection_result
    CancerInspectionScreeningTest.get_result
  dsimp only [Model.record_event]
  rw [if_neg (by simp [hcancer]), if_pos (by simp [hcancer]),
    if_neg (by simpa [Rng.random, Rng.bump] using hinsp)]
  dsimp only [Rng.random, Rng.bump, Model.treat_cin]
  refine ⟨if m.screening_state = ScreeningState.SURVEILLANCE then
      Event.SURVEILLANCE_DNA else Event.SCREENING_DNA,
    if m.screening_state = ScreeningState.SURVEILLANCE then
      Event.SURVEILLANCE_CANCER_INSPECTION else Event.SCREENING_CANCER_INSPECTION,
    _, rfl, by simp, ?_, ?_, rfl, rfl, rfl⟩ <;> split <;> simp

/-- Witness for C5 at the concrete sample agent and sample draw stream. -/
theorem C5_dna_then_via_scenario_witness :
    is_due_for_screening sampleModel = true ∧
    is_compliant_with_screening sampleModel = true ∧
    (∃ e1 e2 m', DnaThenViaScreeningProtocol.apply sampleModel = .ok m' ∧
      m'.events = sampleModel.events ++
        [(sampleModel.time, sampleModel.uid, e1, sampleModel.params.dna.cost),
         (sampleModel.time, sampleModel.uid, e2,
           sampleModel.params.cancer_inspection.cost)] ∧
      (e1 = Event.SCREENING_DNA ∨ e1 = Event.SURVEILLANCE_DNA) ∧
      (e2 = Event.SCREENING_CANCER_INSPECTION ∨
        e2 = Event.SURVEILLANCE_CANCER_INSPECTION) ∧
      m'.screening_state = ScreeningState.SURVEILLANCE ∧
      m'.treat_cin_calls = sampleModel.treat_cin_calls + 1 ∧
      m'.detect_cancer_calls = sampleModel.detect_cancer_calls) :=
  ⟨by decide, by decide,
    C5_dna_then_via_scenario sampleModel (by decide) (by decide) (by decide)
      (by decide) (by decide) (by decide) (by decide) (by decide) (by decide)⟩
